import Mathlib

/-!
Verification of the pull-request lifecycle logic of `git-pull-request.py`.

Python strings are modelled as `List Char`; Python exceptions as an explicit
error type (`UserWarning` carries its message; `AttributeError`, `IOError` and
`NameError` mark the untyped crashes the script can hit).  Results of external
subprocess calls (git commands, github API requests, filesystem reads) are
supplied through explicit environment records, since the script only observes
their success/failure status and their captured output.
-/

namespace GitPR

abbrev Str := List Char

/-- Python exceptions observable from the script. `userWarning` is the one
typed, message-carrying failure the script raises on purpose; the others are
untyped crashes (unhandled `AttributeError` from `None.group`, unhandled
`IOError` from `open`, `NameError` from an unassigned local variable). -/
inductive PyError
  | userWarning (msg : Str)
  | attributeError
  | ioError
  | nameError
deriving DecidableEq

/-- Outcome of running a piece of the script: a value or a raised exception. -/
inductive PyResult (α : Type)
  | ok (a : α)
  | error (e : PyError)
deriving DecidableEq

/-- ASCII digit test, the `\d` character class of the Python 2 `re` module. -/
def isDigitCh (c : Char) : Bool := 48 ≤ c.toNat && c.toNat ≤ 57

/-- ASCII uppercase test, the `[A-Z]` character class. -/
def isUpperCh (c : Char) : Bool := 65 ≤ c.toNat && c.toNat ≤ 90

/-- The decimal digit characters, used to model Python's rendering of an int
into a format string. -/
def digitChar : Nat → Char
  | 0 => '0'
  | 1 => '1'
  | 2 => '2'
  | 3 => '3'
  | 4 => '4'
  | 5 => '5'
  | 6 => '6'
  | 7 => '7'
  | 8 => '8'
  | 9 => '9'
  | _ => '!'

/-- Fuelled core of decimal rendering (fuel makes the recursion structural;
any fuel at least the number being rendered gives the same output). -/
def natDigitsCore : Nat → Nat → Str → Str
  | _, 0, acc => acc
  | 0, _ + 1, acc => acc
  | f + 1, n + 1, acc => natDigitsCore f ((n + 1) / 10) (digitChar ((n + 1) % 10) :: acc)

/-- Decimal rendering of a natural number, Python's `'%s' % n` for an int. -/
def natDigits (n : Nat) : Str := if n = 0 then ['0'] else natDigitsCore n n []

/-- Python's `int` applied to a non-empty string of decimal digits. -/
def parseDigits (l : Str) : Nat := l.foldl (fun a c => a * 10 + (c.toNat - 48)) 0

/-- The literal `pull-request`, both the default `local-branch-prefix` option
and the hard-coded first alternative of the branch-name pattern. -/
def pullRequestLit : Str := "pull-request".data

/-- The literal `[TECHNICAL SUPPORT]` searched for in pull request titles. -/
def supLit : Str := "[TECHNICAL SUPPORT]".data

/-- The fields of a github pull request record that the naming logic reads:
`number`, `head.ref` and `title`. -/
structure PullRequest where
  number : Nat
  headRef : Str
  title : Str

/-- The configuration options the lifecycle logic reads. -/
structure Options where
  localBranchPfx : Str
  updateBranch : Str
  updateMethod : Str
  closeDefaultComment : Option Str

/-- Match of the regex `[A-Z]{3,}-\d+` anchored at the head of the list:
a maximal run of at least three uppercase letters, a hyphen, then a non-empty
maximal run of digits.  (Shorter uppercase takes cannot help the `-` literal
match, so the greedy maximal run is the only candidate.) -/
def matchKeyAt (l : Str) : Option Str :=
  let u := l.takeWhile isUpperCh
  if u.length < 3 then none
  else
    match l.drop u.length with
    | '-' :: r =>
      let d := r.takeWhile isDigitCh
      if d = [] then none else some (u ++ '-' :: d)
    | _ => none

/-- `re.search("[A-Z]{3,}-\d+", ref)`: the leftmost match in the string. -/
def findIssueKey : Str → Option Str
  | [] => none
  | c :: rest =>
    match matchKeyAt (c :: rest) with
    | some m => some m
    | none => findIssueKey rest

/-- `re.search` of a literal pattern: does `pat` occur as a contiguous
substring of the text? -/
def hasInfix (pat : Str) : Str → Bool
  | [] => pat.isPrefixOf []
  | c :: rest => pat.isPrefixOf (c :: rest) || hasInfix pat rest

/-- `build_branch_name`: local branch name a pull request is fetched into,
`pfx-number`, then `-KEY` when the head ref contains an issue key, then
`-sup` when the title contains the technical-support marker. -/
def build_branch_name (pfx : Str) (pr : PullRequest) : Str :=
  let base := pfx ++ '-' :: natDigits pr.number
  let withKey :=
    match findIssueKey pr.headRef with
    | some k => base ++ '-' :: k
    | none => base
  if hasInfix supLit pr.title then withKey ++ "-sup".data else withKey

/-- One alternative of the anchored pattern `^(?:pull-request|PFX)-(\d+)`:
if `p` is a literal prefix of `s` followed by `-` and at least one digit,
return the value of the maximal digit run (the capture group). -/
def matchIdAfter (p s : Str) : Option Nat :=
  if p.isPrefixOf s then
    match s.drop p.length with
    | '-' :: r =>
      let d := r.takeWhile isDigitCh
      if d = [] then none else some (parseDigits d)
    | _ => none
  else none

/-- `get_pull_request_ID`: `re.search("^(?:pull-request|PFX)-(\d+)", name)`
followed by `int(m.group(1))`.  The regex alternation tries the literal
`pull-request` first and backtracks to the configured option on failure; if
neither matches, `m` is `None` and `m.group(1)` raises `AttributeError`.
(The configured value is interpolated into the pattern unescaped; it is
modelled here as a regex-literal, which is exact for the default.) -/
def get_pull_request_ID (pfx s : Str) : PyResult Nat :=
  match matchIdAfter pullRequestLit s with
  | some n => .ok n
  | none =>
    match matchIdAfter pfx s with
    | some n => .ok n
    | none => .error .attributeError

/-- Message of the `UserWarning` raised by `get_current_branch_name`. -/
def invalidBranchMsg : Str := "Invalid branch: not a pull request".data

/-- `get_current_branch_name`: `branch` is the captured output of
`git rev-parse --abbrev-ref HEAD`; with `ensure` set, names that start with
neither `pull-request` nor the configured local-branch option are rejected
with a `UserWarning`. -/
def get_current_branch_name (pfx : Str) (ensure : Bool) (branch : Str) : PyResult Str :=
  if ensure && !(pullRequestLit.isPrefixOf branch || pfx.isPrefixOf branch) then
    .error (.userWarning invalidBranchMsg)
  else
    .ok branch

/-- Observable actions of one script run: git commands executed, writes to the
per-request state files, directory switches and github API calls, in program
order. -/
inductive Ev
  | enterWorkDir (d : Str)
  | writeOriginalDir (d : Str)
  | resetClean
  | checkout (b : Str)
  | putTreeish (prNum : Nat) (marker : Str)
  | runUpdate (method : Str)
  | recordChdir (d : Str)
  | chdirTo (d : Str)
  | gitCommit
  | gitRebaseContinue
  | deleteBranchCmd (b : Str)
  | apiPostComment (c : Str)
  | apiClose
deriving DecidableEq

/-- Message of the `UserWarning` raised when a github API request fails
(the real message also carries the URL and the underlying error text). -/
def githubErrMsg : Str := "Error communicating with github".data

/-- The text prepended to the stored commit range in the close comment. -/
def origCommitsText : Str := "\n\nOriginal commits: ".data

/-- External state and API behaviour seen by `close_pull_request`:
the content of `/tmp/git-pull-request-treeish-ID` (`none` when the file does
not exist), and whether the comment-post and issue-close API requests
succeed. -/
structure CloseEnv where
  storedTreeish : Option Str
  postOk : Bool
  closeOk : Bool

/-- What a run of `close_pull_request` produced: the API calls attempted in
order, the content of the treeish state file afterwards, and the outcome. -/
structure CloseResult where
  calls : List Ev
  stored : Option Str
  outcome : PyResult Unit
deriving DecidableEq

/-- Tail of `close_pull_request`: the unconditional issue-close request
(line 297 onward), after `calls` were already attempted. -/
def closeApiStep (env : CloseEnv) (calls : List Ev) : CloseResult :=
  ⟨calls ++ [Ev.apiClose], env.storedTreeish,
    if env.closeOk then .ok () else .error (.userWarning githubErrMsg)⟩

/-- `close_pull_request`: take the explicit comment or the configured default;
read the stored treeish (a missing file's `IOError` is caught and ignored) and
append `Original commits: ...` to the comment; post the comment when it is
neither `None` nor empty; then issue the close request.  The treeish state
file is read but never removed here.  A failing comment post raises before
the close request is reached. -/
def close_pull_request (defaultComment : Option Str) (env : CloseEnv)
    (comment0 : Option Str) : CloseResult :=
  let c1 := match comment0 with
    | none => defaultComment
    | some c => some c
  let c2 := match env.storedTreeish with
    | some t => some (c1.getD [] ++ origCommitsText ++ t)
    | none => c1
  match c2 with
  | some c =>
    if c = [] then closeApiStep env []
    else if env.postOk then closeApiStep env [Ev.apiPostComment c]
    else ⟨[Ev.apiPostComment c], env.storedTreeish, .error (.userWarning githubErrMsg)⟩
  | none => closeApiStep env []

/-- Local git branch state: the checked-out branch and the set of existing
local branches. -/
structure GitState where
  current : Str
  branches : List Str
deriving DecidableEq

/-- `git checkout b` succeeds exactly when the branch exists; it makes `b` the
current branch and changes nothing else. -/
def checkoutBranch (g : GitState) (b : Str) : Option GitState :=
  if b ∈ g.branches then some ⟨b, g.branches⟩ else none

/-- `git branch -D b` succeeds exactly when `b` exists and is not the current
branch; it removes `b` from the branch list. -/
def deleteBranch (g : GitState) (b : Str) : Option GitState :=
  if b ∈ g.branches ∧ b ≠ g.current then
    some ⟨g.current, g.branches.filter (fun x => decide (x ≠ b))⟩
  else none

/-- Message of the `UserWarning` raised when a checkout fails. -/
def couldNotCheckoutMsg (b : Str) : Str := "Could not checkout ".data ++ b

/-- Message of the `UserWarning` raised when a branch delete fails. -/
def couldNotDeleteMsg : Str := "Could not delete branch".data

/-- External behaviour seen by `command_close` beyond the git state: whether
the `get_pull_request` metadata request succeeds, and the close environment. -/
structure CloseCmdEnv where
  getPullOk : Bool
  closeEnv : CloseEnv

/-- What a run of `command_close` produced. -/
structure CloseCmdResult where
  git : GitState
  calls : List Ev
  stored : Option Str
  outcome : PyResult Unit
deriving DecidableEq

/-- `command_close`: read the current branch name (rejecting non-pull-request
names), parse the request ID out of it, fetch the request metadata, close the
request on github, then check out the configured update-branch and delete the
local pull request branch; either git step failing raises a `UserWarning`. -/
def command_close (opts : Options) (g : GitState) (env : CloseCmdEnv)
    (comment : Option Str) : CloseCmdResult :=
  match get_current_branch_name opts.localBranchPfx true g.current with
  | .error e => ⟨g, [], env.closeEnv.storedTreeish, .error e⟩
  | .ok bn =>
    match get_pull_request_ID opts.localBranchPfx bn with
    | .error e => ⟨g, [], env.closeEnv.storedTreeish, .error e⟩
    | .ok _prNum =>
      if !env.getPullOk then ⟨g, [], env.closeEnv.storedTreeish, .error (.userWarning githubErrMsg)⟩
      else
        let c := close_pull_request opts.closeDefaultComment env.closeEnv comment
        match c.outcome with
        | .error e => ⟨g, c.calls, c.stored, .error e⟩
        | .ok _ =>
          match checkoutBranch g opts.updateBranch with
          | none => ⟨g, c.calls ++ [Ev.checkout opts.updateBranch], c.stored,
              .error (.userWarning (couldNotCheckoutMsg opts.updateBranch))⟩
          | some g1 =>
            match deleteBranch g1 bn with
            | none => ⟨g1, c.calls ++ [Ev.checkout opts.updateBranch, Ev.deleteBranchCmd bn],
                c.stored, .error (.userWarning couldNotDeleteMsg)⟩
            | some g2 => ⟨g2, c.calls ++ [Ev.checkout opts.updateBranch, Ev.deleteBranchCmd bn],
                c.stored, .ok ()⟩

/-- Filesystem state read by `get_original_dir_path`: the content of the work
directory's `.git/original_dir_path` file (`none` when it does not exist), and
the target of the symlink at `<git top-level>/.git/config`. -/
structure DirEnv where
  storedOriginalDir : Option Str
  configLinkTarget : Str

/-- `str.rstrip('/')`: drop trailing slashes. -/
def dropTrailingSlashes (l : Str) : Str :=
  (l.reverse.dropWhile (fun c => decide (c = '/'))).reverse

/-- `p.rfind('/') + 1`, clamped to `0` when there is no slash. -/
def idxAfterLastSlash (l : Str) : Nat :=
  match l.reverse.findIdx? (fun c => decide (c = '/')) with
  | some k => l.length - k
  | none => 0

/-- Python 2 `os.path.dirname` on a POSIX path. -/
def dirname (p : Str) : Str :=
  let hd := p.take (idxAfterLastSlash p)
  if hd.isEmpty then hd
  else if hd.all (fun c => decide (c = '/')) then hd
  else dropTrailingSlashes hd

/-- `get_original_dir_path`: `open` the recorded original-directory file — a
missing file raises an uncaught `IOError`; an empty recorded value falls back
to the parent-of-parent of the `.git/config` symlink target; otherwise the
recorded value is returned. -/
def get_original_dir_path (env : DirEnv) : PyResult Str :=
  match env.storedOriginalDir with
  | none => .error .ioError
  | some s =>
    if s = [] then .ok (dirname (dirname env.configLinkTarget))
    else .ok s

/-- External behaviour seen by `complete_update`: whether we are inside the
work directory, whether the checkout of the update-branch there succeeds, the
filesystem state for original-directory resolution, the current branch of the
original directory after switching back, and whether the sync (reset/clean)
or direct checkout succeeds. -/
structure CompleteEnv where
  inWorkDir : Bool
  checkoutUpdateBranchOk : Bool
  dirEnv : DirEnv
  currentBranchAfter : Str
  resetCleanOk : Bool
  checkoutBranchOk : Bool

/-- Message of the `UserWarning` raised when the work-directory checkout of
the update-branch fails in `complete_update`. -/
def workCheckoutMsg (ub : Str) : Str :=
  "Could not checkout ".data ++ ub ++ " branch in work directory".data

/-- Message of the `UserWarning` raised when syncing the original directory
with the work directory fails. -/
def syncFailMsg (b : Str) : Str :=
  "Syncing branch ".data ++ b ++ " with work directory failed".data

/-- `complete_update`: outside the work directory this is a no-op; inside it,
check out the update-branch, resolve the original directory (possibly raising
the uncaught `IOError` of `get_original_dir_path`), switch back to it, and
either hard-reset/clean it (when it already sits on `branch_name`) or check
`branch_name` out. -/
def complete_update (opts : Options) (env : CompleteEnv) (branch_name : Str) :
    List Ev × PyResult Unit :=
  if env.inWorkDir then
    if !env.checkoutUpdateBranchOk then
      ([Ev.checkout opts.updateBranch], .error (.userWarning (workCheckoutMsg opts.updateBranch)))
    else
      match get_original_dir_path env.dirEnv with
      | .error e => ([Ev.checkout opts.updateBranch], .error e)
      | .ok d =>
        let evs := [Ev.checkout opts.updateBranch, Ev.chdirTo d, Ev.recordChdir d]
        if env.currentBranchAfter = branch_name then
          (evs ++ [Ev.resetClean],
            if env.resetCleanOk then .ok () else .error (.userWarning (syncFailMsg branch_name)))
        else
          (evs ++ [Ev.checkout branch_name],
            if env.checkoutBranchOk then .ok ()
            else .error (.userWarning (couldNotCheckoutMsg branch_name)))
  else ([], .ok ())

/-- The literal `merge`. -/
def mergeLit : Str := "merge".data

/-- The literal `rebase`. -/
def rebaseLit : Str := "rebase".data

/-- Message of the conflict `UserWarning` of `continue_update` and
`update_branch`. -/
def updateConflictMsg (ub : Str) : Str :=
  "Updating from ".data ++ ub ++ " failed, resolve conflicts and run continue-update".data

/-- External behaviour seen by `continue_update`: whether `git commit` or
`git rebase --continue` succeeds, the branch name reported after the
operation, and the environment of the final `complete_update`. -/
structure ContinueEnv where
  commitOk : Bool
  rebaseOk : Bool
  currentBranch : Str
  completeEnv : CompleteEnv

/-- `continue_update`: run `git commit` when the update-method option is
`merge`, `git rebase --continue` when it is `rebase` — for any other value
the local variable `ret` is never assigned and the `if ret != 0` test raises
an untyped `NameError`.  On a still-failing operation raise the conflict
`UserWarning`; otherwise re-read the branch name and run `complete_update`. -/
def continue_update (opts : Options) (env : ContinueEnv) : List Ev × PyResult Unit :=
  match (if opts.updateMethod = mergeLit then some (Ev.gitCommit, env.commitOk)
         else if opts.updateMethod = rebaseLit then some (Ev.gitRebaseContinue, env.rebaseOk)
         else none) with
  | none => ([], .error .nameError)
  | some (ev, retOk) =>
    if !retOk then ([ev], .error (.userWarning (updateConflictMsg opts.updateBranch)))
    else
      match get_current_branch_name opts.localBranchPfx true env.currentBranch with
      | .error e => ([ev], .error e)
      | .ok bn =>
        let c := complete_update opts env.completeEnv bn
        (ev :: c.1, c.2)

/-- External behaviour seen by `update_branch`: the `in_work_dir()` check, the
configured work directory (`none` when absent or missing on disk), the git
top-level path of the starting directory, the results of the git commands it
runs, the captured merge-base and head commit ids, and the environment of the
final `complete_update`. -/
structure UpdateEnv where
  inWorkDir : Bool
  workDir : Option Str
  gitBasePath : Str
  resetCleanOk : Bool
  checkoutOk : Bool
  mergeBase : Str
  headCommit : Str
  updateOk : Bool
  completeEnv : CompleteEnv

/-- Message of the `UserWarning` raised when `update_branch` is invoked from
inside the work directory. -/
def cannotUpdateInWorkDirMsg : Str :=
  "Cannot perform an update from within the work directory".data

/-- Message of the `UserWarning` raised when cleaning the work directory
fails. -/
def cleanWorkDirFailMsg : Str :=
  "Cleaning up work directory failed, update not performed".data

/-- Message of the checkout `UserWarning` of `update_branch` (the work
directory variant mentions the work directory). -/
def updateCheckoutFailMsg (hasWorkDir : Bool) (b : Str) : Str :=
  if hasWorkDir then
    "Could not checkout ".data ++ b ++ " in the work directory, update not performed".data
  else
    "Could not checkout ".data ++ b ++ ", update not performed".data

/-- Body of `update_branch` after the work-directory preamble: check out the
branch; abbreviate the merge-base and head commit ids into the treeish marker
(the single abbreviated head id when the merge-base is the head, otherwise
`base..head` with both sides cut to ten characters); parse the request ID from
the branch name (which can raise the untyped `AttributeError`); write the
marker to the per-request state file; run `git <update-method> <update-branch>`;
on failure record the work directory as last directory and raise the conflict
`UserWarning`, on success run `complete_update`. -/
def update_branch_core (opts : Options) (env : UpdateEnv) (branch_name : Str)
    (evs0 : List Ev) (hasWorkDir : Bool) : List Ev × PyResult Unit :=
  let evs1 := evs0 ++ [Ev.checkout branch_name]
  if !env.checkoutOk then
    (evs1, .error (.userWarning (updateCheckoutFailMsg hasWorkDir branch_name)))
  else
    let treeish := if env.mergeBase = env.headCommit then env.headCommit.take 10
                   else env.mergeBase.take 10 ++ '.' :: '.' :: env.headCommit.take 10
    match get_pull_request_ID opts.localBranchPfx branch_name with
    | .error e => (evs1, .error e)
    | .ok prNum =>
      let evs2 := evs1 ++ [Ev.putTreeish prNum treeish, Ev.runUpdate opts.updateMethod]
      if !env.updateOk then
        (evs2 ++ (match env.workDir with
                  | some wd => [Ev.recordChdir wd]
                  | none => []),
          .error (.userWarning (updateConflictMsg opts.updateBranch)))
      else
        let c := complete_update opts env.completeEnv branch_name
        (evs2 ++ c.1, c.2)

/-- `update_branch`: refuse to run from inside the work directory; when a work
directory is configured, switch into it, record the original directory in its
`.git/original_dir_path`, and hard-reset/clean it (fatal on failure); then run
the core update sequence. -/
def update_branch (opts : Options) (env : UpdateEnv) (branch_name : Str) :
    List Ev × PyResult Unit :=
  if env.inWorkDir then
    ([], .error (.userWarning cannotUpdateInWorkDirMsg))
  else
    match env.workDir with
    | some wd =>
      let evs0 := [Ev.enterWorkDir wd, Ev.writeOriginalDir env.gitBasePath, Ev.resetClean]
      if !env.resetCleanOk then (evs0, .error (.userWarning cleanWorkDirFailMsg))
      else update_branch_core opts env branch_name evs0 true
    | none => update_branch_core opts env branch_name [] false

/-! ## Helper lemmas about decimal rendering and parsing -/

/-- The fuel argument of `natDigitsCore` is irrelevant once it covers the
number, and the accumulator is simply appended. -/
theorem natDigitsCore_acc : ∀ n f acc, n ≤ f →
    natDigitsCore f n acc = natDigitsCore n n [] ++ acc := by
  intro n
  induction n using Nat.strong_induction_on with
  | _ n ih =>
    intro f acc hf
    cases n with
    | zero => cases f <;> simp [natDigitsCore]
    | succ k =>
      cases f with
      | zero => omega
      | succ g =>
        have hdiv : (k + 1) / 10 < k + 1 := Nat.div_lt_self (Nat.succ_pos k) (by omega)
        simp only [natDigitsCore]
        rw [ih ((k + 1) / 10) hdiv g _ (by omega), ih ((k + 1) / 10) hdiv k _ (by omega)]
        simp [List.append_assoc]

/-- Peeling the last digit off the rendering of a positive number. -/
theorem natDigitsCore_snoc (k : Nat) :
    natDigitsCore (k + 1) (k + 1) [] =
      natDigitsCore ((k + 1) / 10) ((k + 1) / 10) [] ++ [digitChar ((k + 1) % 10)] := by
  have hdiv : (k + 1) / 10 < k + 1 := Nat.div_lt_self (Nat.succ_pos k) (by omega)
  simp only [natDigitsCore]
  exact natDigitsCore_acc ((k + 1) / 10) k _ (by omega)

theorem digitChar_isDigit {r : Nat} (h : r < 10) : isDigitCh (digitChar r) = true := by
  interval_cases r <;> decide

theorem digitChar_toNat {r : Nat} (h : r < 10) : (digitChar r).toNat = 48 + r := by
  interval_cases r <;> decide

/-- Every character of a rendered number is a decimal digit. -/
theorem natDigits_digits : ∀ n, ∀ c ∈ natDigits n, isDigitCh c = true := by
  have core : ∀ n, ∀ c ∈ natDigitsCore n n [], isDigitCh c = true := by
    intro n
    induction n using Nat.strong_induction_on with
    | _ n ih =>
      cases n with
      | zero => intro c hc; simp [natDigitsCore] at hc
      | succ k =>
        intro c hc
        rw [natDigitsCore_snoc] at hc
        rcases List.mem_append.1 hc with h | h
        · exact ih _ (Nat.div_lt_self (Nat.succ_pos k) (by omega)) c h
        · have : c = digitChar ((k + 1) % 10) := by simpa using h
          subst this
          exact digitChar_isDigit (Nat.mod_lt _ (by omega))
  intro n c hc
  unfold natDigits at hc
  split at hc
  · simp at hc; subst hc; decide
  · exact core n c hc

theorem natDigits_ne_nil (n : Nat) : natDigits n ≠ [] := by
  unfold natDigits
  split
  · simp
  · cases n with
    | zero => simp_all
    | succ k => rw [natDigitsCore_snoc]; simp

/-- Folding the decimal-parse step over a rendered number recovers it. -/
theorem foldl_natDigitsCore : ∀ n a,
    (natDigitsCore n n []).foldl (fun a c => a * 10 + (c.toNat - 48)) a =
      a * 10 ^ (natDigitsCore n n []).length + n := by
  intro n
  induction n using Nat.strong_induction_on with
  | _ n ih =>
    cases n with
    | zero => intro a; simp [natDigitsCore]
    | succ k =>
      intro a
      have hdiv : (k + 1) / 10 < k + 1 := Nat.div_lt_self (Nat.succ_pos k) (by omega)
      have hmod : 10 * ((k + 1) / 10) + (k + 1) % 10 = k + 1 := Nat.div_add_mod (k + 1) 10
      have hr : (k + 1) % 10 < 10 := Nat.mod_lt _ (by omega)
      rw [natDigitsCore_snoc, List.foldl_append, List.length_append, ih _ hdiv]
      simp only [List.foldl_cons, List.foldl_nil, List.length_cons, List.length_nil]
      rw [digitChar_toNat hr, pow_succ, ← mul_assoc]
      set C := a * 10 ^ (natDigitsCore ((k + 1) / 10) ((k + 1) / 10) []).length with hC
      omega

theorem parseDigits_natDigits (n : Nat) : parseDigits (natDigits n) = n := by
  unfold natDigits parseDigits
  split
  · simp_all
  · cases n with
    | zero => simp_all
    | succ k => rw [foldl_natDigitsCore]; simp

/-! ## Helper lemmas about list scanning -/

/-- `takeWhile` over an append whose left part satisfies the predicate and
whose right part starts with a failing character (or is empty). -/
theorem takeWhile_append_all {p : Char → Bool} :
    ∀ (a r : Str), (∀ c ∈ a, p c = true) →
      (∀ c, r.head? = some c → p c = false) →
      (a ++ r).takeWhile p = a := by
  intro a
  induction a with
  | nil =>
    intro r _ hr
    cases r with
    | nil => rfl
    | cons c t => simp [List.takeWhile, hr c rfl]
  | cons c t ih =>
    intro r ha hr
    have hc : p c = true := ha c (List.mem_cons_self c t)
    simp only [List.cons_append, List.takeWhile, hc, List.cons.injEq, true_and]
    exact ih r (fun x hx => ha x (List.mem_cons_of_mem _ hx)) hr

theorem isPrefixOf_append_self : ∀ (p t : Str), p.isPrefixOf (p ++ t) = true := by
  intro p t
  induction p with
  | nil => simp [List.isPrefixOf]
  | cons c cs ih => simp [List.isPrefixOf, ih]

/-- The anchored id pattern, applied to a well-formed branch name: literal
head, hyphen, rendered number, then a remainder that does not start with a
digit. -/
theorem matchIdAfter_num (P : Str) (n : Nat) (rest : Str)
    (hrest : ∀ c, rest.head? = some c → isDigitCh c = false) :
    matchIdAfter P (P ++ '-' :: (natDigits n ++ rest)) = some n := by
  unfold matchIdAfter
  rw [isPrefixOf_append_self]
  simp only [if_true]
  rw [List.drop_left]
  show (if (natDigits n ++ rest).takeWhile isDigitCh = [] then none
        else some (parseDigits ((natDigits n ++ rest).takeWhile isDigitCh))) = some n
  rw [takeWhile_append_all (natDigits n) rest (natDigits_digits n) hrest]
  rw [if_neg (natDigits_ne_nil n)]
  rw [parseDigits_natDigits]

/-- The full id parse on a name built over the default `pull-request` head. -/
theorem get_pull_request_ID_append (P : Str) (n : Nat) (rest : Str)
    (hrest : ∀ c, rest.head? = some c → isDigitCh c = false) :
    get_pull_request_ID P (pullRequestLit ++ '-' :: (natDigits n ++ rest)) = .ok n := by
  unfold get_pull_request_ID
  rw [matchIdAfter_num pullRequestLit n rest hrest]

/-! ## Claim C5 -/

/-- Claim C5: for every pull-request record (integer identifier, any head
reference, any title), parsing the generated branch name under the default
`pull-request` local-branch option returns exactly the identifier that
`build_branch_name` embedded into it. -/
theorem resolve_roundtrip (pr : PullRequest) :
    get_pull_request_ID pullRequestLit (build_branch_name pullRequestLit pr) = .ok pr.number := by
  unfold build_branch_name
  have hsup : ∀ c, ("-sup".data).head? = some c → isDigitCh c = false := by
    intro c hc
    have h0 : ("-sup".data).head? = some '-' := rfl
    rw [h0] at hc
    injection hc with hc
    subst hc
    decide
  cases hk : findIssueKey pr.headRef with
  | none =>
    cases hs : hasInfix supLit pr.title with
    | false =>
      simp only [hs, if_false, Bool.false_eq_true]
      have h := get_pull_request_ID_append pullRequestLit pr.number []
        (by intro c hc; simp at hc)
      simpa using h
    | true =>
      simp only [hs, if_true]
      have h := get_pull_request_ID_append pullRequestLit pr.number "-sup".data hsup
      simpa [List.append_assoc] using h
  | some k =>
    cases hs : hasInfix supLit pr.title with
    | false =>
      simp only [hs, if_false, Bool.false_eq_true]
      have h := get_pull_request_ID_append pullRequestLit pr.number ('-' :: k)
        (by intro c hc; simp at hc; subst hc; decide)
      simpa [List.append_assoc] using h
    | true =>
      simp only [hs, if_true]
      have h := get_pull_request_ID_append pullRequestLit pr.number
        ('-' :: (k ++ "-sup".data))
        (by intro c hc; simp at hc; subst hc; decide)
      simpa [List.append_assoc] using h

/-! ## Claim C8 -/

/-- Claim C8: a title containing `[TECHNICAL SUPPORT]` makes the branch name
end in `-sup`; with an issue key in the head reference the name is exactly
`PFX-id-KEY-sup`; and request 42 with head ref `feature/ABC-100-fix` and
title `Fix thing` resolves to `pull-request-42-ABC-100` under the default
option value. -/
theorem technical_support_branch_name :
    (∀ (pfx : Str) (pr : PullRequest), hasInfix supLit pr.title = true →
      ∃ t, build_branch_name pfx pr = t ++ "-sup".data) ∧
    (∀ (pfx : Str) (pr : PullRequest) (k : Str), hasInfix supLit pr.title = true →
      findIssueKey pr.headRef = some k →
      build_branch_name pfx pr =
        pfx ++ '-' :: (natDigits pr.number ++ '-' :: (k ++ "-sup".data))) ∧
    build_branch_name pullRequestLit ⟨42, "feature/ABC-100-fix".data, "Fix thing".data⟩ =
      "pull-request-42-ABC-100".data := by
  refine ⟨?_, ?_, ?_⟩
  · intro pfx pr h
    unfold build_branch_name
    rw [h]
    cases findIssueKey pr.headRef with
    | none => exact ⟨pfx ++ '-' :: natDigits pr.number, by simp⟩
    | some k => exact ⟨pfx ++ '-' :: (natDigits pr.number ++ '-' :: k), by simp⟩
  · intro pfx pr k h hk
    unfold build_branch_name
    rw [h, hk]
    simp [List.append_assoc]
  · decide

/-- Witness for claim C8 at a concrete technical-support request with an
issue key in its head reference. -/
theorem technical_support_branch_name_witness :
    build_branch_name pullRequestLit
      ⟨7, "ABC-1".data, "x [TECHNICAL SUPPORT] y".data⟩ =
      pullRequestLit ++ '-' :: (natDigits 7 ++ '-' :: ("ABC-1".data ++ "-sup".data)) :=
  technical_support_branch_name.2.1 pullRequestLit
    ⟨7, "ABC-1".data, "x [TECHNICAL SUPPORT] y".data⟩ "ABC-1".data
    (by decide) (by decide)

/-! ## Claim C3 -/

/-- Counterexample to claim C3: on the non-matching branch name `foo`,
`get_pull_request_ID` raises the untyped `AttributeError` of `None.group`,
which is not the typed message-carrying `NotAPullRequestBranch` failure. -/
theorem resolve_id_untyped_crash_cex :
    get_pull_request_ID pullRequestLit "foo".data = .error .attributeError ∧
    (PyResult.error .attributeError : PyResult Nat) ≠
      .error (.userWarning invalidBranchMsg) := by
  constructor
  · decide
  · decide

/-- Claim C3 (amended): `get_pull_request_ID` never reports the typed
`UserWarning`: on any string where neither alternative of the pattern
matches it crashes with the untyped `AttributeError`; the typed
`NotAPullRequestBranch` rejection is raised instead by the current-branch
guard, for names starting with neither the literal `pull-request` nor the
configured option value. -/
theorem resolve_id_error_taxonomy (pfx s : Str) :
    (∀ msg, get_pull_request_ID pfx s ≠ .error (.userWarning msg)) ∧
    (matchIdAfter pullRequestLit s = none → matchIdAfter pfx s = none →
      get_pull_request_ID pfx s = .error .attributeError) ∧
    (pullRequestLit.isPrefixOf s = false → pfx.isPrefixOf s = false →
      get_current_branch_name pfx true s = .error (.userWarning invalidBranchMsg)) := by
  refine ⟨?_, ?_, ?_⟩
  · intro msg h
    unfold get_pull_request_ID at h
    cases h1 : matchIdAfter pullRequestLit s <;> rw [h1] at h
    · cases h2 : matchIdAfter pfx s <;> rw [h2] at h <;> simp_all
    · simp_all
  · intro h1 h2
    unfold get_pull_request_ID
    rw [h1, h2]
  · intro h1 h2
    unfold get_current_branch_name
    rw [h1, h2]
    simp

/-- Witness for claim C3 (amended) at concrete inputs: with configured value
`feature`, the name `other-1` is rejected by the current-branch guard with
the typed warning, while the id parse crashes untyped on it. -/
theorem resolve_id_error_taxonomy_witness :
    get_pull_request_ID "feature".data "other-1".data = .error .attributeError ∧
    get_current_branch_name "feature".data true "other-1".data =
      .error (.userWarning invalidBranchMsg) :=
  ⟨(resolve_id_error_taxonomy "feature".data "other-1".data).2.1 (by decide) (by decide),
   (resolve_id_error_taxonomy "feature".data "other-1".data).2.2 (by decide) (by decide)⟩

/-! ## Claim C1 -/

/-- Counterexample to claim C1: a successful close of a request whose marker
is stored leaves the stored record in place — the subsequent read does not
return absent. -/
theorem close_marker_not_deleted_cex :
    (close_pull_request none ⟨some "abc1234567".data, true, true⟩ none).stored =
      some "abc1234567".data ∧
    (close_pull_request none ⟨some "abc1234567".data, true, true⟩ none).outcome = .ok () := by
  constructor
  · decide
  · decide

/-- Claim C1 (amended): closing reads the stored marker and appends
`Original commits: ...` to the close comment — posting it first — but never
deletes the stored record: the store is left exactly as it was, so a
subsequent read for the same request still returns the marker. -/
theorem close_marker_kept (dc : Option Str) (env : CloseEnv) (c0 : Option Str) :
    (close_pull_request dc env c0).stored = env.storedTreeish ∧
    (∀ t, env.storedTreeish = some t →
      ∃ p, (close_pull_request dc env c0).calls.head? =
        some (Ev.apiPostComment (p ++ origCommitsText ++ t))) := by
  have hne : ∀ (p t : Str), p ++ origCommitsText ++ t ≠ [] := by
    intro p t h
    rw [List.append_assoc] at h
    rcases List.append_eq_nil.1 h with ⟨_, h2⟩
    rcases List.append_eq_nil.1 h2 with ⟨h3, _⟩
    simp [origCommitsText] at h3
  constructor
  · unfold close_pull_request closeApiStep
    dsimp only
    split
    · split
      · rfl
      · split <;> rfl
    · rfl
  · intro t ht
    unfold close_pull_request closeApiStep
    dsimp only
    rw [ht]
    dsimp only
    refine ⟨(match c0 with | none => dc | some c => some c).getD [], ?_⟩
    rw [if_neg (hne _ _)]
    cases env.postOk <;> simp

/-- Witness for claim C1 (amended): with a stored marker `abc`, the posted
close comment carries the marker and the store is unchanged. -/
theorem close_marker_kept_witness :
    (close_pull_request none ⟨some "abc".data, true, true⟩ (some "hi".data)).stored =
      some "abc".data ∧
    (∃ p, (close_pull_request none ⟨some "abc".data, true, true⟩
        (some "hi".data)).calls.head? =
      some (Ev.apiPostComment (p ++ origCommitsText ++ "abc".data))) :=
  ⟨(close_marker_kept none ⟨some "abc".data, true, true⟩ (some "hi".data)).1,
   (close_marker_kept none ⟨some "abc".data, true, true⟩ (some "hi".data)).2
     "abc".data rfl⟩

/-! ## Claim C2 -/

/-- Counterexample to claim C2: with a non-empty comment whose API post
fails, the run stops at the post — the close request is never issued. -/
theorem close_comment_failure_blocks_close_cex :
    (close_pull_request none ⟨none, false, true⟩ (some "bye".data)).calls =
      [Ev.apiPostComment "bye".data] ∧
    Ev.apiClose ∉ (close_pull_request none ⟨none, false, true⟩ (some "bye".data)).calls := by
  constructor
  · decide
  · decide

/-- A run of `close_pull_request` has one of three shapes: a successful post
followed by the close call, a failed post with nothing after it, or no post
at all followed by the close call. -/
theorem close_calls_cases (dc : Option Str) (env : CloseEnv) (c0 : Option Str) :
    (∃ c, close_pull_request dc env c0 =
        ⟨[Ev.apiPostComment c] ++ [Ev.apiClose], env.storedTreeish,
          if env.closeOk then .ok () else .error (.userWarning githubErrMsg)⟩ ∧
        env.postOk = true) ∨
    (∃ c, close_pull_request dc env c0 =
        ⟨[Ev.apiPostComment c], env.storedTreeish,
          .error (.userWarning githubErrMsg)⟩ ∧
        env.postOk = false) ∨
    close_pull_request dc env c0 =
      ⟨[Ev.apiClose], env.storedTreeish,
        if env.closeOk then .ok () else .error (.userWarning githubErrMsg)⟩ := by
  unfold close_pull_request closeApiStep
  dsimp only
  split
  · rename_i c heq
    by_cases hc : c = []
    · rw [if_pos hc]
      right; right; rfl
    · rw [if_neg hc]
      cases hp : env.postOk with
      | false => right; left; exact ⟨c, by simp [hp], rfl⟩
      | true => left; exact ⟨c, by simp [hp], rfl⟩
  · right; right; rfl

/-- Claim C2 (amended): when a comment post is attempted and fails, the
raised `UserWarning` aborts `close_pull_request` before the close request;
the close call is issued exactly in the runs where no post is attempted or
the post succeeds. -/
theorem close_post_failure_blocks_close (dc : Option Str) (env : CloseEnv) (c0 : Option Str) :
    (env.postOk = true → Ev.apiClose ∈ (close_pull_request dc env c0).calls) ∧
    ((∃ c, Ev.apiPostComment c ∈ (close_pull_request dc env c0).calls) →
      env.postOk = false →
      Ev.apiClose ∉ (close_pull_request dc env c0).calls ∧
      (close_pull_request dc env c0).outcome = .error (.userWarning githubErrMsg)) ∧
    ((∀ c, Ev.apiPostComment c ∉ (close_pull_request dc env c0).calls) →
      Ev.apiClose ∈ (close_pull_request dc env c0).calls) := by
  refine ⟨?_, ?_, ?_⟩
  · intro hp
    rcases close_calls_cases dc env c0 with ⟨c, hq, _⟩ | ⟨c, _, hp2⟩ | hq
    · rw [hq]; simp
    · simp [hp] at hp2
    · rw [hq]; simp
  · rintro ⟨c, hc⟩ hp
    rcases close_calls_cases dc env c0 with ⟨d, _, hp2⟩ | ⟨d, hq, _⟩ | hq
    · simp [hp] at hp2
    · rw [hq]
      exact ⟨by simp, rfl⟩
    · rw [hq] at hc
      simp at hc
  · intro hall
    rcases close_calls_cases dc env c0 with ⟨d, hq, _⟩ | ⟨d, hq, _⟩ | hq
    · exact absurd (by rw [hq]; simp) (hall d)
    · exact absurd (by rw [hq]; simp) (hall d)
    · rw [hq]; simp

/-- Witness for claim C2 (amended): a failing post on a non-empty comment
leaves the close unattempted and the run failed. -/
theorem close_post_failure_blocks_close_witness :
    Ev.apiClose ∉ (close_pull_request none ⟨none, false, true⟩ (some "bye".data)).calls ∧
    (close_pull_request none ⟨none, false, true⟩ (some "bye".data)).outcome =
      .error (.userWarning githubErrMsg) :=
  (close_post_failure_blocks_close none ⟨none, false, true⟩ (some "bye".data)).2.1
    ⟨"bye".data, by decide⟩ rfl

/-! ## Claim C9 -/

/-- A successful `get_current_branch_name` returns the input branch. -/
theorem get_current_branch_name_ok {pfx : Str} {e : Bool} {b bn : Str}
    (h : get_current_branch_name pfx e b = .ok bn) : bn = b := by
  unfold get_current_branch_name at h
  split at h
  · cases h
  · cases h; rfl

/-- A successful checkout targets an existing branch and switches to it. -/
theorem checkoutBranch_ok {g : GitState} {b : Str} {g1 : GitState}
    (h : checkoutBranch g b = some g1) : g1 = ⟨b, g.branches⟩ ∧ b ∈ g.branches := by
  unfold checkoutBranch at h
  split at h
  · cases h; exact ⟨rfl, by assumption⟩
  · cases h

/-- Checking out a missing branch fails. -/
theorem checkoutBranch_none {g : GitState} {b : Str} (h : b ∉ g.branches) :
    checkoutBranch g b = none := by
  unfold checkoutBranch
  rw [if_neg h]

/-- A successful branch delete removes the branch and was not the current
one. -/
theorem deleteBranch_ok {g : GitState} {b : Str} {g2 : GitState}
    (h : deleteBranch g b = some g2) :
    g2 = ⟨g.current, g.branches.filter (fun x => decide (x ≠ b))⟩ ∧ b ≠ g.current := by
  unfold deleteBranch at h
  split at h
  · cases h; exact ⟨rfl, by tauto⟩
  · cases h

/-- Deleting the currently checked-out branch fails. -/
theorem deleteBranch_current {g : GitState} {b : Str} (h : b = g.current) :
    deleteBranch g b = none := by
  unfold deleteBranch
  rw [if_neg]
  tauto

/-- A branch is gone from the branch list after it is filtered out. -/
theorem not_mem_filter_self (b : Str) (l : List Str) :
    b ∉ l.filter (fun x => decide (x ≠ b)) := by
  intro h
  rcases List.mem_filter.1 h with ⟨_, hb⟩
  simp at hb

/-- All three parts of the close-command property hold vacuously when the
run failed. -/
theorem closeCmd_triple_of_error {opts : Options} {g : GitState} {env : CloseCmdEnv}
    {c : Option Str} (e : PyError)
    (h : (command_close opts g env c).outcome = .error e) :
    ((command_close opts g env c).outcome = .ok () →
      (command_close opts g env c).git.current = opts.updateBranch ∧
      g.current ∉ (command_close opts g env c).git.branches) ∧
    (opts.updateBranch ∉ g.branches → (command_close opts g env c).outcome ≠ .ok ()) ∧
    (g.current = opts.updateBranch → (command_close opts g env c).outcome ≠ .ok ()) := by
  rw [h]
  refine ⟨fun hok => ?_, fun _ hok => ?_, fun _ hok => ?_⟩ <;> cases hok

/-- Claim C9: a successful close-command run ends with the update-branch
checked out and the pull-request branch deleted; an impossible checkout of
the update-branch, or the pull-request branch being the update-branch itself
(so that the delete fails), prevents success. -/
theorem command_close_git_effects (opts : Options) (g : GitState) (env : CloseCmdEnv)
    (c : Option Str) :
    ((command_close opts g env c).outcome = .ok () →
      (command_close opts g env c).git.current = opts.updateBranch ∧
      g.current ∉ (command_close opts g env c).git.branches) ∧
    (opts.updateBranch ∉ g.branches → (command_close opts g env c).outcome ≠ .ok ()) ∧
    (g.current = opts.updateBranch → (command_close opts g env c).outcome ≠ .ok ()) := by
  cases hbn : get_current_branch_name opts.localBranchPfx true g.current with
  | error e => exact closeCmd_triple_of_error e (by simp [command_close, hbn])
  | ok bn =>
    have hbg : bn = g.current := get_current_branch_name_ok hbn
    subst hbg
    cases hid : get_pull_request_ID opts.localBranchPfx g.current with
    | error e => exact closeCmd_triple_of_error e (by simp [command_close, hbn, hid])
    | ok prNum =>
      cases hgp : env.getPullOk with
      | false =>
        exact closeCmd_triple_of_error (.userWarning githubErrMsg)
          (by simp [command_close, hbn, hid, hgp])
      | true =>
        cases hcl : (close_pull_request opts.closeDefaultComment env.closeEnv c).outcome with
        | error e =>
          exact closeCmd_triple_of_error e
            (by simp [command_close, hbn, hid, hgp, hcl])
        | ok u =>
          cases hco : checkoutBranch g opts.updateBranch with
          | none =>
            exact closeCmd_triple_of_error
              (.userWarning (couldNotCheckoutMsg opts.updateBranch))
              (by simp [command_close, hbn, hid, hgp, hcl, hco])
          | some g1 =>
            cases hdel : deleteBranch g1 g.current with
            | none =>
              exact closeCmd_triple_of_error (.userWarning couldNotDeleteMsg)
                (by simp [command_close, hbn, hid, hgp, hcl, hco, hdel])
            | some g2 =>
              have hgit : (command_close opts g env c).git = g2 := by
                simp [command_close, hbn, hid, hgp, hcl, hco, hdel]
              rcases checkoutBranch_ok hco with ⟨hg1, hmem⟩
              rcases deleteBranch_ok hdel with ⟨hg2, _⟩
              refine ⟨fun _ => ?_, fun hub hok => ?_, fun hcur hok => ?_⟩
              · rw [hgit, hg2, hg1]
                exact ⟨rfl, not_mem_filter_self _ _⟩
              · exact absurd hmem hub
              · have hc1 : g.current = g1.current := by rw [hg1]; exact hcur
                rw [deleteBranch_current hc1] at hdel
                cases hdel

/-- Witness for claim C9: a concrete successful close run ends on `master`
with the pull-request branch gone. -/
theorem command_close_git_effects_witness :
    (command_close ⟨"pull-request".data, "master".data, "merge".data, none⟩
        ⟨"pull-request-5".data, ["master".data, "pull-request-5".data]⟩
        ⟨true, ⟨none, true, true⟩⟩ none).git.current = "master".data ∧
    "pull-request-5".data ∉
      (command_close ⟨"pull-request".data, "master".data, "merge".data, none⟩
        ⟨"pull-request-5".data, ["master".data, "pull-request-5".data]⟩
        ⟨true, ⟨none, true, true⟩⟩ none).git.branches :=
  (command_close_git_effects ⟨"pull-request".data, "master".data, "merge".data, none⟩
    ⟨"pull-request-5".data, ["master".data, "pull-request-5".data]⟩
    ⟨true, ⟨none, true, true⟩⟩ none).1 (by decide)

/-! ## Claim C4 -/

/-- Counterexample to claim C4: inside the work directory with no recorded
original-directory file at all, the `open` call raises an uncaught `IOError`
and resolution fails instead of falling back. -/
theorem leave_workdir_absent_record_cex :
    (complete_update ⟨"pull-request".data, "master".data, "merge".data, none⟩
      ⟨true, true, ⟨none, "/tmp/x/.git/config".data⟩, "b".data, true, true⟩
      "pull-request-1".data).2 = .error .ioError := by
  decide

/-- Claim C4 (amended): the fallback to the parent-of-parent of the config
symlink target applies only when the recorded original-directory file exists
with empty content; a present non-empty record is used as is; a missing
record makes resolution fail with an uncaught `IOError`. -/
theorem leave_workdir_fallback (opts : Options) (env : CompleteEnv) (bn : Str)
    (hin : env.inWorkDir = true) (hco : env.checkoutUpdateBranchOk = true) :
    (env.dirEnv.storedOriginalDir = none →
      (complete_update opts env bn).2 = .error .ioError) ∧
    (env.dirEnv.storedOriginalDir = some [] →
      Ev.chdirTo (dirname (dirname env.dirEnv.configLinkTarget)) ∈
        (complete_update opts env bn).1) ∧
    (∀ s, s ≠ [] → env.dirEnv.storedOriginalDir = some s →
      Ev.chdirTo s ∈ (complete_update opts env bn).1) := by
  refine ⟨?_, ?_, ?_⟩
  · intro hd
    simp [complete_update, get_original_dir_path, hin, hco, hd]
  · intro hd
    simp only [complete_update, get_original_dir_path, hin, hco, hd, if_true]
    simp only [Bool.not_true, Bool.false_eq_true, if_false]
    split <;> simp
  · intro s hs hd
    simp only [complete_update, get_original_dir_path, hin, hco, hd, if_true]
    simp only [Bool.not_true, Bool.false_eq_true, if_false]
    rw [if_neg hs]
    split
    · rename_i heq
      simp at heq
    · rename_i d heq
      have hds : d = s := by
        injection heq with h
        exact h.symm
      subst hds
      split <;> simp

/-- Witness for claim C4 (amended): an empty recorded value resolves through
the symlink fallback. -/
theorem leave_workdir_fallback_witness :
    Ev.chdirTo (dirname (dirname "/home/u/repo/.git/config".data)) ∈
      (complete_update ⟨"pull-request".data, "master".data, "merge".data, none⟩
        ⟨true, true, ⟨some [], "/home/u/repo/.git/config".data⟩, "b".data, true, true⟩
        "pull-request-1".data).1 :=
  (leave_workdir_fallback ⟨"pull-request".data, "master".data, "merge".data, none⟩
    ⟨true, true, ⟨some [], "/home/u/repo/.git/config".data⟩, "b".data, true, true⟩
    "pull-request-1".data rfl rfl).2.1 rfl

/-! ## Claim C10 -/

/-- `get_current_branch_name` either returns the branch or the typed invalid
branch warning. -/
theorem get_current_branch_name_cases (pfx : Str) (e : Bool) (b : Str) :
    get_current_branch_name pfx e b = .ok b ∨
    get_current_branch_name pfx e b = .error (.userWarning invalidBranchMsg) := by
  unfold get_current_branch_name
  split
  · right; rfl
  · left; rfl

/-- `complete_update` can fail only with a `UserWarning` or the `IOError` of
the original-directory read, never with a `NameError`. -/
theorem complete_update_not_nameError (opts : Options) (env : CompleteEnv) (bn : Str) :
    (complete_update opts env bn).2 ≠ .error .nameError := by
  unfold complete_update get_original_dir_path
  cases hd : env.dirEnv.storedOriginalDir with
  | none =>
    repeat' split
    all_goals intro h
    all_goals simp_all
  | some s =>
    dsimp only
    by_cases hval : s = []
    · rw [if_pos hval]
      repeat' split
      all_goals intro h
      all_goals simp_all
    · rw [if_neg hval]
      repeat' split
      all_goals intro h
      all_goals simp_all

/-- Claim C10: with an update-method other than `merge` or `rebase`,
`continue_update` crashes with the untyped `NameError` of the unassigned
`ret` variable; with `merge` or `rebase` that crash is unreachable. -/
theorem continue_update_method_totality (opts : Options) (env : ContinueEnv) :
    (opts.updateMethod ≠ mergeLit → opts.updateMethod ≠ rebaseLit →
      (continue_update opts env).2 = .error .nameError) ∧
    ((opts.updateMethod = mergeLit ∨ opts.updateMethod = rebaseLit) →
      (continue_update opts env).2 ≠ .error .nameError) := by
  constructor
  · intro h1 h2
    unfold continue_update
    rw [if_neg h1, if_neg h2]
  · intro h
    unfold continue_update
    rcases h with h | h
    · rw [if_pos h]
      dsimp only
      cases hcm : env.commitOk with
      | false => simp
      | true =>
        simp only [Bool.not_true]
        rw [if_neg (by simp)]
        rcases get_current_branch_name_cases opts.localBranchPfx true env.currentBranch with
          hc | hc
        · rw [hc]
          exact complete_update_not_nameError opts env.completeEnv env.currentBranch
        · rw [hc]
          simp
    · rw [if_neg (by rw [h]; decide), if_pos h]
      dsimp only
      cases hcm : env.rebaseOk with
      | false => simp
      | true =>
        simp only [Bool.not_true]
        rw [if_neg (by simp)]
        rcases get_current_branch_name_cases opts.localBranchPfx true env.currentBranch with
          hc | hc
        · rw [hc]
          exact complete_update_not_nameError opts env.completeEnv env.currentBranch
        · rw [hc]
          simp

/-- Witness for claim C10: the method `squash` crashes with `NameError`,
while `merge` cannot. -/
theorem continue_update_method_totality_witness :
    (continue_update ⟨"pull-request".data, "master".data, "squash".data, none⟩
      ⟨true, true, "pull-request-1".data, ⟨false, true, ⟨none, []⟩, [], true, true⟩⟩).2 =
      .error .nameError ∧
    (continue_update ⟨"pull-request".data, "master".data, "merge".data, none⟩
      ⟨true, true, "pull-request-1".data, ⟨false, true, ⟨none, []⟩, [], true, true⟩⟩).2 ≠
      .error .nameError :=
  ⟨(continue_update_method_totality ⟨"pull-request".data, "master".data, "squash".data, none⟩
      ⟨true, true, "pull-request-1".data, ⟨false, true, ⟨none, []⟩, [], true, true⟩⟩).1
      (by decide) (by decide),
   (continue_update_method_totality ⟨"pull-request".data, "master".data, "merge".data, none⟩
      ⟨true, true, "pull-request-1".data, ⟨false, true, ⟨none, []⟩, [], true, true⟩⟩).2
      (Or.inl rfl)⟩

/-! ## Claims C6 and C7 -/

/-- `complete_update` never writes a treeish marker. -/
theorem complete_update_no_putTreeish (opts : Options) (env : CompleteEnv) (bn : Str)
    (k : Nat) (m : Str) : Ev.putTreeish k m ∉ (complete_update opts env bn).1 := by
  unfold complete_update get_original_dir_path
  repeat' split
  all_goals simp

/-- Shape of the core update trace: checkout, treeish write, update command,
with no other treeish writes afterwards. -/
theorem update_core_trace (opts : Options) (env : UpdateEnv) (bn : Str) (prNum : Nat)
    (evs0 : List Ev) (hw : Bool)
    (hco : env.checkoutOk = true)
    (hp : get_pull_request_ID opts.localBranchPfx bn = .ok prNum) :
    ∃ tail,
      (update_branch_core opts env bn evs0 hw).1 =
        evs0 ++ Ev.checkout bn ::
          Ev.putTreeish prNum
            (if env.mergeBase = env.headCommit then env.headCommit.take 10
             else env.mergeBase.take 10 ++ '.' :: '.' :: env.headCommit.take 10) ::
          Ev.runUpdate opts.updateMethod :: tail ∧
      (∀ k2 m, Ev.putTreeish k2 m ∉ tail) := by
  cases hup : env.updateOk with
  | false =>
    cases hwd : env.workDir with
    | none =>
      refine ⟨[], ?_, by simp⟩
      simp [update_branch_core, hco, hp, hup, hwd]
    | some wd =>
      refine ⟨[Ev.recordChdir wd], ?_, by simp⟩
      simp [update_branch_core, hco, hp, hup, hwd]
  | true =>
    refine ⟨(complete_update opts env.completeEnv bn).1, ?_, ?_⟩
    · simp [update_branch_core, hco, hp, hup]
    · intro k2 m
      exact complete_update_no_putTreeish opts env.completeEnv bn k2 m

/-- Shape of the full update trace under the preconditions of the claims:
a preamble without treeish writes, then checkout, treeish write and update
command, then a tail without treeish writes. -/
theorem update_branch_trace (opts : Options) (env : UpdateEnv) (bn : Str) (prNum : Nat)
    (hin : env.inWorkDir = false)
    (hreset : env.workDir = none ∨ env.resetCleanOk = true)
    (hco : env.checkoutOk = true)
    (hp : get_pull_request_ID opts.localBranchPfx bn = .ok prNum) :
    ∃ evs0 tail,
      (update_branch opts env bn).1 =
        evs0 ++ Ev.checkout bn ::
          Ev.putTreeish prNum
            (if env.mergeBase = env.headCommit then env.headCommit.take 10
             else env.mergeBase.take 10 ++ '.' :: '.' :: env.headCommit.take 10) ::
          Ev.runUpdate opts.updateMethod :: tail ∧
      (∀ k m, Ev.putTreeish k m ∉ evs0) ∧
      (∀ k m, Ev.putTreeish k m ∉ tail) := by
  cases hwd : env.workDir with
  | none =>
    have hu : update_branch opts env bn = update_branch_core opts env bn [] false := by
      simp [update_branch, hin, hwd]
    rcases update_core_trace opts env bn prNum [] false hco hp with ⟨tail, h1, h2⟩
    exact ⟨[], tail, by rw [hu]; exact h1, by simp, h2⟩
  | some wd =>
    have hr : env.resetCleanOk = true := by
      rcases hreset with h | h
      · rw [hwd] at h; cases h
      · exact h
    have hu : update_branch opts env bn = update_branch_core opts env bn
        [Ev.enterWorkDir wd, Ev.writeOriginalDir env.gitBasePath, Ev.resetClean] true := by
      simp [update_branch, hin, hwd, hr]
    rcases update_core_trace opts env bn prNum
      [Ev.enterWorkDir wd, Ev.writeOriginalDir env.gitBasePath, Ev.resetClean] true hco hp with
      ⟨tail, h1, h2⟩
    exact ⟨[Ev.enterWorkDir wd, Ev.writeOriginalDir env.gitBasePath, Ev.resetClean], tail,
      by rw [hu]; exact h1, by simp, h2⟩

/-- Claim C6: the marker written during update is the abbreviated head id
when the merge-base equals the head commit, and `base..head` with both sides
cut to ten characters otherwise — and it is the only marker written. -/
theorem update_treeish_marker (opts : Options) (env : UpdateEnv) (bn : Str) (prNum : Nat)
    (hin : env.inWorkDir = false)
    (hreset : env.workDir = none ∨ env.resetCleanOk = true)
    (hco : env.checkoutOk = true)
    (hp : get_pull_request_ID opts.localBranchPfx bn = .ok prNum) :
    Ev.putTreeish prNum
      (if env.mergeBase = env.headCommit then env.headCommit.take 10
       else env.mergeBase.take 10 ++ '.' :: '.' :: env.headCommit.take 10) ∈
      (update_branch opts env bn).1 ∧
    ∀ m, Ev.putTreeish prNum m ∈ (update_branch opts env bn).1 →
      m = (if env.mergeBase = env.headCommit then env.headCommit.take 10
           else env.mergeBase.take 10 ++ '.' :: '.' :: env.headCommit.take 10) := by
  rcases update_branch_trace opts env bn prNum hin hreset hco hp with ⟨evs0, tail, h1, h2, h3⟩
  rw [h1]
  constructor
  · simp
  · intro m hm
    rcases List.mem_append.1 hm with h | h
    · exact absurd h (h2 _ _)
    · simp only [List.mem_cons] at h
      rcases h with h | h | h | h
      · simp at h
      · simp at h
        exact h
      · simp at h
      · exact absurd h (h3 _ _)

/-- Witness for claim C6: a concrete update with distinct merge-base and
head records the `base..head` marker. -/
theorem update_treeish_marker_witness :
    Ev.putTreeish 3
      (if ("aaa".data : Str) = "bbb".data then ("bbb".data : Str).take 10
       else ("aaa".data : Str).take 10 ++ '.' :: '.' :: ("bbb".data : Str).take 10) ∈
      (update_branch ⟨"pull-request".data, "master".data, "merge".data, none⟩
        ⟨false, none, "/orig".data, true, true, "aaa".data, "bbb".data, true,
          ⟨false, true, ⟨none, []⟩, [], true, true⟩⟩
        "pull-request-3".data).1 :=
  (update_treeish_marker ⟨"pull-request".data, "master".data, "merge".data, none⟩
    ⟨false, none, "/orig".data, true, true, "aaa".data, "bbb".data, true,
      ⟨false, true, ⟨none, []⟩, [], true, true⟩⟩
    "pull-request-3".data 3 rfl (Or.inl rfl) rfl (by decide)).1

/-- Claim C7: once the checkout of the target branch succeeded (and the name
parses), the trace always places the treeish write immediately before the
update command — in particular the marker is persisted even when the update
command fails. -/
theorem update_persists_marker_before_update (opts : Options) (env : UpdateEnv) (bn : Str)
    (prNum : Nat)
    (hin : env.inWorkDir = false)
    (hreset : env.workDir = none ∨ env.resetCleanOk = true)
    (hco : env.checkoutOk = true)
    (hp : get_pull_request_ID opts.localBranchPfx bn = .ok prNum) :
    ∃ l1 l2 m, (update_branch opts env bn).1 =
      l1 ++ Ev.putTreeish prNum m :: Ev.runUpdate opts.updateMethod :: l2 := by
  rcases update_branch_trace opts env bn prNum hin hreset hco hp with ⟨evs0, tail, h1, _, _⟩
  refine ⟨evs0 ++ [Ev.checkout bn], tail,
    (if env.mergeBase = env.headCommit then env.headCommit.take 10
     else env.mergeBase.take 10 ++ '.' :: '.' :: env.headCommit.take 10), ?_⟩
  rw [h1]
  simp

/-- Witness for claim C7: a concrete conflicted update (the update command
fails) still has the marker write before the update command in its trace. -/
theorem update_persists_marker_before_update_witness :
    ∃ l1 l2 m, (update_branch ⟨"pull-request".data, "master".data, "rebase".data, none⟩
      ⟨false, some "/wd".data, "/orig".data, true, true, "ccc".data, "ddd".data, false,
        ⟨false, true, ⟨none, []⟩, [], true, true⟩⟩
      "pull-request-8".data).1 =
      l1 ++ Ev.putTreeish 8 m :: Ev.runUpdate "rebase".data :: l2 :=
  update_persists_marker_before_update ⟨"pull-request".data, "master".data, "rebase".data, none⟩
    ⟨false, some "/wd".data, "/orig".data, true, true, "ccc".data, "ddd".data, false,
      ⟨false, true, ⟨none, []⟩, [], true, true⟩⟩
    "pull-request-8".data 8 rfl (Or.inr rfl) rfl (by decide)

end GitPR
